import Mathlib

/-!
Verification of the pyminthcm client library (src/pyminthcm/mint_api.py).

We shallowly embed the two components the specification singles out:

* the API Session Manager (`MintHCM`): token loading (`_load_token`),
  login (`_login`), token refresh URL derivation (`_refresh_token`),
  logout (`_logout`) and retrying dispatch (`_request`);
* the Module Accessor (`Module`): record creation (`Module.create`) and
  query-filter translation (`Module.get`).

Python strings are modelled by `String`, Python values occurring in
request/response bodies by `PyVal`, and Python exceptions by `PyError`.
Network and filesystem effects are modelled by explicit inputs (an abstract
`dispatch` function, file contents, refresh outcomes) and by returning the
list of issued calls alongside the result, so that claims about which
requests are issued can be stated and proved.
-/

/-- HTTP methods supported by the client (class HTTPMethod). -/
inductive HTTPMethod where
  | get
  | post
  | patch
  | delete
deriving DecidableEq, Repr

/-- Python values appearing in request payloads and parsed JSON responses. -/
inductive PyVal where
  | str (s : String)
  | dict (fields : List (String × PyVal))

/-- Kinds of MintHCMError: the two user-facing subclasses and the base class. -/
inductive MintErrorKind where
  | authentication
  | request
  | generic
deriving DecidableEq, Repr

/-- Python exceptions the embedded code can raise: builtin lookup/index/attribute
errors and the MintHCMError hierarchy (message, optional code, details). -/
inductive PyError where
  | keyError (key : String)
  | indexError
  | attributeError
  | mintError (kind : MintErrorKind) (message : String) (code : Option Nat) (details : PyVal)

/-- Whether an exception is a RequestError (RequestError subclass of MintHCMError). -/
def PyError.isRequestError : PyError → Bool
  | .mintError .request _ _ _ => true
  | _ => false

/-- Whether an exception is a builtin KeyError. -/
def PyError.isKeyError : PyError → Bool
  | .keyError _ => true
  | _ => false

/-- A network call issued through the session manager: method, url, payload. -/
def Call := HTTPMethod × String × Option PyVal

/-- An abstract transport: what the session manager returns for a call. -/
def Dispatch := HTTPMethod → String → Option PyVal → Except PyError PyVal

/-! ## Module Accessor: query-filter translation (Module.get) -/

/-- A filter value in Module.get(**filters): either a plain scalar (rendered
into the query string) or a structured comparison dict with operator and value. -/
inductive FilterValue where
  | scalar (s : String)
  | cmp (op : String) (value : String)
deriving DecidableEq, Repr

/-- The fixed operator table of Module.get (mint_api.py lines 378-389). -/
def operators : List (String × String) :=
  [("=", "EQ"), ("<>", "NEQ"), (">", "GT"), (">=", "GTE"), ("<", "LT"),
   ("<=", "LTE"), ("LIKE", "LIKE"), ("NOT LIKE", "NOT_LIKE"),
   ("IN", "IN"), ("NOT IN", "NOT_IN")]

/-- Python str.split on a comma: single-character separator split. -/
def pySplitComma (s : String) : List String :=
  (s.data.splitOn ',').map (fun l => String.mk l)

/-- The clause Module.get appends to filter_str for one field/value pair
(mint_api.py lines 391-399): BETWEEN splits the comma-joined value into a
GT and an LT bound; other structured operators go through the operator
table, an unknown operator raising KeyError; a plain scalar becomes EQ. -/
def filterClause (field : String) (v : FilterValue) : Except PyError String :=
  match v with
  | .scalar s => .ok ("&filter[" ++ field ++ "][EQ]=" ++ s)
  | .cmp op value =>
    if op = "BETWEEN" then
      match pySplitComma value with
      | v0 :: v1 :: _ =>
        .ok ("&filter[" ++ field ++ "][GT]=" ++ v0 ++ "&filter[" ++ field ++ "][LT]=" ++ v1)
      | _ => .error .indexError
    else
      match operators.lookup op with
      | some code => .ok ("&filter[" ++ field ++ "][" ++ code ++ "]=" ++ value)
      | none => .error (.keyError op)

/-- The combinator actually used: anything other than and/or falls back to and
(mint_api.py lines 373-374). -/
def effectiveOperator (operator : String) : String :=
  if operator = "and" ∨ operator = "or" then operator else "and"

/-- One step of the filter_str accumulation loop. -/
def filterStep (acc : Except PyError String) (fv : String × FilterValue) :
    Except PyError String :=
  match acc with
  | .error e => .error e
  | .ok s =>
    match filterClause fv.1 fv.2 with
    | .error e => .error e
    | .ok c => .ok (s ++ c)

/-- The filter_str built by Module.get (mint_api.py lines 373-399). -/
def build_filter_str (operator : String) (filters : List (String × FilterValue)) :
    Except PyError String :=
  filters.foldl filterStep (.ok ("filter[operator]=" ++ effectiveOperator operator))

/-- The fields_str prefix of the query (mint_api.py lines 368-371): empty or
absent fields give a bare question mark. -/
def fields_str (module_name : String) (fields : List String) : String :=
  if fields.isEmpty then "?"
  else "?fields[" ++ module_name ++ "]=" ++ String.intercalate "," fields

/-- The full URL Module.get builds before dispatching (mint_api.py lines
368-406); translation errors (KeyError / IndexError) abort before the URL
exists. An empty sort string is falsy in Python and appends nothing. -/
def module_get_url (baseurl module_name : String) (fields : List String)
    (sort : Option String) (operator : String)
    (filters : List (String × FilterValue)) : Except PyError String :=
  match build_filter_str operator filters with
  | .error e => .error e
  | .ok fstr =>
    let url := baseurl ++ "/module/" ++ module_name ++ fields_str module_name fields
      ++ "&" ++ fstr
    .ok (match sort with
      | some s => if s = "" then url else url ++ "&sort=-" ++ s
      | none => url)

/-- Module.get (mint_api.py lines 352-408): translate, then issue a single GET
through the session manager; a translation error issues no call at all. -/
def module_get (baseurl module_name : String) (fields : List String)
    (sort : Option String) (operator : String)
    (filters : List (String × FilterValue)) (dispatch : Dispatch) :
    Except PyError PyVal × List Call :=
  match module_get_url baseurl module_name fields sort operator filters with
  | .error e => (.error e, [])
  | .ok url => (dispatch .get url none, [(.get, url, none)])

/-! ## Module Accessor: record creation (Module.create) -/

/-- Module.create (mint_api.py lines 308-319): one POST to the generic module
endpoint with body type/attributes, result returned unchanged. -/
def module_create (baseurl module_name : String)
    (attributes : List (String × PyVal)) (dispatch : Dispatch) :
    Except PyError PyVal × List Call :=
  let payload := PyVal.dict [("type", .str module_name), ("attributes", .dict attributes)]
  (dispatch .post (baseurl ++ "/module") (some payload),
   [(.post, baseurl ++ "/module", some payload)])

/-! ## API Session Manager: token endpoint derivation -/

/-- Python slicing baseurl[:-2]: all but the last two characters, empty when
the string is shorter than two characters. -/
def pyDropLast2 (s : String) : String :=
  String.mk (s.data.take (s.data.length - 2))

/-- The token endpoint used by _refresh_token (mint_api.py line 124):
the base URL minus its last two characters, with access_token appended. -/
def token_url (baseurl : String) : String :=
  pyDropLast2 baseurl ++ "access_token"

/-! ## API Session Manager: token loading and login -/

/-- The outcome of MintHCM._load_token (mint_api.py lines 84-101).
Every exception path in the source is caught inside the method
(FileNotFoundError and json.JSONDecodeError both return False), so the
model is a total function: _load_token never raises.
value models the Python return value: some true / some false for the
explicit returns, none for the implicit None when the stripped file content
is empty (the method falls off its end). parseAttempted records whether
json.loads was invoked; token is what self.session.token was set to. -/
structure LoadResult where
  value : Option Bool
  parseAttempted : Bool
  token : Option PyVal

/-- Python str.strip with no argument: leading and trailing whitespace
characters removed. -/
def pyStrip (s : String) : String :=
  String.mk (((s.data.dropWhile Char.isWhitespace).reverse.dropWhile
    Char.isWhitespace).reverse)

/-- MintHCM._load_token: file is the content of the token file (none when the
file does not exist), parse models json.loads (none when parsing raises
JSONDecodeError). -/
def load_token (token_path : String) (file : Option String)
    (parse : String → Option PyVal) : LoadResult :=
  if token_path = "" then ⟨some false, false, none⟩
  else
    match file with
    | none => ⟨some false, false, none⟩
    | some content =>
      let token_data := pyStrip content
      if token_data = "" then ⟨none, false, none⟩
      else
        match parse token_data with
        | some t => ⟨some true, true, some t⟩
        | none => ⟨some false, true, none⟩

/-- The outcome of the first MintHCM._login call (mint_api.py lines 136-157,
from the constructor): whether a fresh token fetch (_refresh_token) was
performed, against which URL, which token the session holds from the file,
and whether the loader attempted a JSON parse. -/
structure LoginResult where
  freshFetch : Bool
  fetchUrl : Option String
  sessionToken : Option PyVal
  parseAttempted : Bool

/-- MintHCM._login on a fresh instance: build the session; if a token path is
configured and _load_token returns a truthy value, keep the loaded token,
otherwise fetch a fresh token from the derived token endpoint. -/
def login (baseurl token_path : String) (file : Option String)
    (parse : String → Option PyVal) : LoginResult :=
  let lr := load_token token_path file parse
  if token_path ≠ "" ∧ lr.value = some true then
    ⟨false, none, lr.token, lr.parseAttempted⟩
  else
    ⟨true, some (token_url baseurl), none, lr.parseAttempted⟩

/-! ## API Session Manager: logout -/

/-- The outcome of MintHCM._logout (mint_api.py lines 159-172): the result
(ok when no exception escapes), the calls issued, and whether the token-file
truncation was attempted. -/
structure LogoutResult where
  result : Except PyError Unit
  calls : List Call
  truncationAttempted : Bool

/-- MintHCM._logout: POST to the logout endpoint through _request (modelled by
dispatch); if that raises, the exception propagates and truncation is never
reached. Otherwise, when a token path is configured, truncate the file;
truncateResult models the outcome of the file write, and any error there is
swallowed by the bare except clause. -/
def logout (baseurl token_path : String) (dispatch : Dispatch)
    (truncateResult : Except PyError Unit) : LogoutResult :=
  let c : Call := (.post, baseurl ++ "/logout", none)
  match dispatch .post (baseurl ++ "/logout") none with
  | .error e => ⟨.error e, [c], false⟩
  | .ok _ =>
    if token_path = "" then ⟨.ok (), [c], false⟩
    else
      match truncateResult with
      | .ok _ => ⟨.ok (), [c], true⟩
      | .error _ => ⟨.ok (), [c], true⟩

/-! ## API Session Manager: retrying request dispatch (_request)

The two-iteration retry loop of MintHCM._request (mint_api.py lines 195-240)
is modelled over an environment giving the outcome of each network attempt
(a response with status and body, or a raised TokenExpiredError) and the
outcome of a _refresh_token call. URL sanitization and the method lookup,
which precede the loop, are independent of the retry behaviour and omitted.
-/

/-- A response body as seen by json.loads: either it parses to a value or
raises JSONDecodeError (carrying the raw text). -/
inductive BodyContent where
  | valid (v : PyVal)
  | invalid (raw : String)

/-- What one network attempt inside the loop produces: a raised
TokenExpiredError, or an HTTP response with a status code and body. -/
inductive AttemptOutcome where
  | tokenExpired
  | response (status : Nat) (body : BodyContent)

/-- How many network attempts were issued and how many token refreshes were
performed during one _request call. -/
structure RequestTrace where
  requests : Nat
  refreshes : Nat
deriving DecidableEq, Repr

/-- content.get("errors", \x7b\x7d).get("detail", "") on a parsed error body
(mint_api.py line 216): a missing errors key yields the empty-string default;
a non-dict content or a non-dict errors value has no get method and raises
AttributeError. -/
def errorsDetail (v : PyVal) : Except PyError PyVal :=
  match v with
  | .dict fs =>
    match fs.lookup "errors" with
    | none => .ok (.str "")
    | some (.dict efs) =>
      .ok (match efs.lookup "detail" with
        | some d => d
        | none => .str "")
    | some (.str _) => .error .attributeError
  | .str _ => .error .attributeError

/-- Resolution of a response that is not a 401 (mint_api.py lines 214-235):
status at least 400 raises RequestError with the extracted detail, a body
that fails to parse raises RequestError with the raw body as detail, and a
successful parse below 400 is returned. -/
def resolveBody (status : Nat) (body : BodyContent) : Except PyError PyVal :=
  if status ≥ 400 then
    match body with
    | .invalid raw =>
      .error (.mintError .request "request failed" (some status)
        (.str ("Invalid JSON response: " ++ raw)))
    | .valid v =>
      match errorsDetail v with
      | .error e => .error e
      | .ok d => .error (.mintError .request "request failed" (some status) d)
  else
    match body with
    | .valid v => .ok v
    | .invalid raw =>
      .error (.mintError .request "request failed" (some status)
        (.str ("Invalid JSON response: " ++ raw)))

/-- The second (and last) loop iteration, reached only after a refresh: a 401
here raises AuthenticationError with code 401, a TokenExpiredError here
raises AuthenticationError without a code, anything else resolves as usual.
No further attempt follows. -/
def secondAttempt (a1 : AttemptOutcome) : Except PyError PyVal × RequestTrace :=
  match a1 with
  | .tokenExpired =>
    (.error (.mintError .authentication "API token refresh failed" none (.str "")), ⟨2, 1⟩)
  | .response status body =>
    if status = 401 then
      (.error (.mintError .authentication "authentication failed - token rejected"
        (some 401) (.str "")), ⟨2, 1⟩)
    else (resolveBody status body, ⟨2, 1⟩)

/-- MintHCM._request as a function of the outcomes of the (at most two)
attempts and of the (at most one) token refresh: a 401 or a
TokenExpiredError on the first attempt triggers a refresh, whose failure
propagates; on refresh success the same request is retried exactly once. -/
def request (a0 a1 : AttemptOutcome) (refreshResult : Except PyError Unit) :
    Except PyError PyVal × RequestTrace :=
  match a0 with
  | .tokenExpired =>
    (match refreshResult with
     | .error e => (.error e, ⟨1, 1⟩)
     | .ok _ => secondAttempt a1)
  | .response status body =>
    if status = 401 then
      match refreshResult with
      | .error e => (.error e, ⟨1, 1⟩)
      | .ok _ => secondAttempt a1
    else (resolveBody status body, ⟨1, 0⟩)

/-! ## Concrete transports used by witnesses and counterexamples -/

/-- A transport that always succeeds with an empty JSON object. -/
def dispatchOk : Dispatch := fun _ _ _ => .ok (.dict [])

/-- A transport on which every request fails as a twice-rejected token does:
_request raises AuthenticationError with code 401. -/
def dispatchAuthFail : Dispatch := fun _ _ _ =>
  .error (.mintError .authentication "authentication failed - token rejected"
    (some 401) (.str ""))

/-- A JSON parse oracle accepting exactly the empty-object text. -/
def parseEmptyObj : String → Option PyVal := fun s =>
  if s = "\x7b\x7d" then some (.dict []) else none

/-! ## Theorems -/

/-- C8: Module.create issues exactly one POST to the generic module endpoint,
with body type/attributes, and returns the parsed response unchanged. -/
theorem module_create_single_post (baseurl module_name : String)
    (attributes : List (String × PyVal)) (dispatch : Dispatch) :
    module_create baseurl module_name attributes dispatch =
      (dispatch .post (baseurl ++ "/module")
        (some (.dict [("type", .str module_name), ("attributes", .dict attributes)])),
       [(.post, baseurl ++ "/module",
        some (.dict [("type", .str module_name), ("attributes", .dict attributes)]))]) :=
  rfl

/-- C9: the token endpoint is the base URL minus its last two characters with
access_token appended, and every fresh fetch performed by login targets it. -/
theorem token_url_drops_last_two (a c : String) (hc : c.length = 2) :
    token_url (a ++ c) = a ++ "access_token"
    ∧ ∀ (b token_path : String) (file : Option String)
        (parse : String → Option PyVal),
        (login b token_path file parse).freshFetch = true →
        (login b token_path file parse).fetchUrl = some (token_url b) := by
  constructor
  · have hc2 : c.data.length = 2 := hc
    unfold token_url pyDropLast2
    have hdata : (a ++ c).data = a.data ++ c.data := String.data_append a c
    rw [hdata, List.length_append, hc2, Nat.add_sub_cancel, List.take_left]
  · intro b token_path file parse hfetch
    by_cases hcond : token_path ≠ ""
        ∧ (load_token token_path file parse).value = some true
    · simp [login, hcond] at hfetch
    · simp [login, hcond]

/-- Witness for C9 at a base URL ending in the segment V8. -/
theorem token_url_drops_last_two_witness :
    ("V8" : String).length = 2
    ∧ token_url ("https://host/Api/" ++ "V8") = "https://host/Api/" ++ "access_token" :=
  ⟨rfl, (token_url_drops_last_two "https://host/Api/" "V8" rfl).1⟩

/-- C7: with a token path configured, a file that loads successfully bypasses
the fresh token fetch, while a missing file or one whose stripped content
fails to parse always triggers a fresh fetch. -/
theorem login_token_load (baseurl token_path : String) (file : Option String)
    (parse : String → Option PyVal) (hpath : token_path ≠ "") :
    (∀ content t, file = some content → pyStrip content ≠ "" →
        parse (pyStrip content) = some t →
        login baseurl token_path file parse = ⟨false, none, some t, true⟩)
    ∧ (file = none → (login baseurl token_path file parse).freshFetch = true)
    ∧ (∀ content, file = some content → parse (pyStrip content) = none →
        (login baseurl token_path file parse).freshFetch = true) := by
  refine ⟨?_, ?_, ?_⟩
  · intro content t hfile htrim hparse
    subst hfile
    simp [login, load_token, if_neg hpath, htrim, hparse, hpath]
  · intro hfile
    subst hfile
    simp [login, load_token, if_neg hpath]
  · intro content hfile hparse
    subst hfile
    by_cases htrim : pyStrip content = "" <;>
      simp [login, load_token, if_neg hpath, htrim, hparse]

/-- Witness for C7: a loadable token file bypasses the fetch; a missing and a
malformed file each trigger it. -/
theorem login_token_load_witness :
    (("AccessToken.json" : String) ≠ ""
      ∧ pyStrip " \x7b\x7d " ≠ "" ∧ parseEmptyObj (pyStrip " \x7b\x7d ") = some (.dict []))
    ∧ login "https://host/Api/V8" "AccessToken.json" (some " \x7b\x7d ") parseEmptyObj =
        ⟨false, none, some (.dict []), true⟩
    ∧ (login "https://host/Api/V8" "AccessToken.json" none parseEmptyObj).freshFetch = true
    ∧ (login "https://host/Api/V8" "AccessToken.json" (some "not json") parseEmptyObj).freshFetch
        = true :=
  ⟨⟨by decide, by decide, rfl⟩,
   (login_token_load "https://host/Api/V8" "AccessToken.json" (some " \x7b\x7d ")
      parseEmptyObj (by decide)).1 " \x7b\x7d " (.dict []) rfl (by decide) rfl,
   (login_token_load "https://host/Api/V8" "AccessToken.json" none
      parseEmptyObj (by decide)).2.1 rfl,
   (login_token_load "https://host/Api/V8" "AccessToken.json" (some "not json")
      parseEmptyObj (by decide)).2.2 "not json" rfl rfl⟩

/-- C10: a token file whose content strips to the empty string behaves like a
missing file: the loader reports a falsy value (Python None) without
attempting a JSON parse, the login outcome is identical to the missing-file
one, and a fresh fetch is performed. -/
theorem load_token_blank_file (baseurl token_path content : String)
    (parse : String → Option PyVal) (hpath : token_path ≠ "")
    (htrim : pyStrip content = "") :
    load_token token_path (some content) parse = ⟨none, false, none⟩
    ∧ login baseurl token_path (some content) parse =
        login baseurl token_path none parse
    ∧ (login baseurl token_path (some content) parse).freshFetch = true := by
  refine ⟨?_, ?_, ?_⟩ <;> simp [login, load_token, if_neg hpath, htrim]

/-- Witness for C10 at a whitespace-only token file. -/
theorem load_token_blank_file_witness :
    (("AccessToken.json" : String) ≠ "" ∧ pyStrip "   " = "")
    ∧ load_token "AccessToken.json" (some "   ") parseEmptyObj = ⟨none, false, none⟩
    ∧ login "https://host/Api/V8" "AccessToken.json" (some "   ") parseEmptyObj =
        login "https://host/Api/V8" "AccessToken.json" none parseEmptyObj
    ∧ (login "https://host/Api/V8" "AccessToken.json" (some "   ") parseEmptyObj).freshFetch
        = true :=
  ⟨⟨by decide, rfl⟩,
   load_token_blank_file "https://host/Api/V8" "AccessToken.json" "   "
     parseEmptyObj (by decide) rfl⟩

/-- C3 counterexample: when the POST through _request raises (here: a token
rejected twice), _logout propagates the exception to the caller, so logout
is not exception-free. -/
theorem logout_can_raise_counterexample :
    (logout "https://host/Api/V8" "AccessToken.json" dispatchAuthFail (.ok ())).result =
      .error (.mintError .authentication "authentication failed - token rejected"
        (some 401) (.str ""))
    ∧ (logout "https://host/Api/V8" "AccessToken.json" dispatchAuthFail
        (.ok ())).truncationAttempted = false :=
  ⟨rfl, rfl⟩

/-- C3 (amended): _logout issues the POST to the fixed logout endpoint, and
once that POST succeeds no exception escapes: any error during the
best-effort token-file truncation is swallowed. An error raised by the POST
itself, however, propagates. -/
theorem logout_swallows_truncation_errors (baseurl token_path : String)
    (dispatch : Dispatch) (truncateResult : Except PyError Unit) (v : PyVal)
    (h : dispatch .post (baseurl ++ "/logout") none = .ok v) :
    (logout baseurl token_path dispatch truncateResult).result = .ok ()
    ∧ (logout baseurl token_path dispatch truncateResult).calls =
        [(.post, baseurl ++ "/logout", none)] := by
  unfold logout
  rw [h]
  constructor
  · by_cases hp : token_path = "" <;> cases truncateResult <;> simp [hp]
  · by_cases hp : token_path = "" <;> cases truncateResult <;> simp [hp]

/-- Witness for the amended C3: a succeeding POST followed by a failing
truncation still returns without an exception. -/
theorem logout_swallows_truncation_errors_witness :
    dispatchOk .post ("https://host/Api/V8" ++ "/logout") none = .ok (.dict [])
    ∧ (logout "https://host/Api/V8" "AccessToken.json" dispatchOk
        (.error .indexError)).result = .ok ()
    ∧ (logout "https://host/Api/V8" "AccessToken.json" dispatchOk
        (.error .indexError)).calls =
        [(.post, "https://host/Api/V8" ++ "/logout", none)] :=
  ⟨rfl,
   (logout_swallows_truncation_errors "https://host/Api/V8" "AccessToken.json"
      dispatchOk (.error .indexError) (.dict []) rfl).1,
   (logout_swallows_truncation_errors "https://host/Api/V8" "AccessToken.json"
      dispatchOk (.error .indexError) (.dict []) rfl).2⟩

/-- C2: a 401 on the first attempt with a succeeding refresh gives exactly one
refresh and exactly one retry; a 401 on the retry as well raises
AuthenticationError with code 401 after exactly two attempts; no call of
_request ever issues more than two attempts; and a second attempt happens
only when the first one was a 401 response or a raised TokenExpiredError. -/
theorem request_retry_policy :
    (∀ (body : BodyContent) (a1 : AttemptOutcome),
      (request (.response 401 body) a1 (.ok ())).2 = ⟨2, 1⟩)
    ∧ (∀ (body body1 : BodyContent),
      request (.response 401 body) (.response 401 body1) (.ok ()) =
        (.error (.mintError .authentication "authentication failed - token rejected"
          (some 401) (.str "")), ⟨2, 1⟩))
    ∧ (∀ (a0 a1 : AttemptOutcome) (r : Except PyError Unit),
        (request a0 a1 r).2.requests ≤ 2)
    ∧ (∀ (a0 a1 : AttemptOutcome) (r : Except PyError Unit),
        (request a0 a1 r).2.requests = 2 →
        a0 = .tokenExpired ∨ ∃ body, a0 = .response 401 body) := by
  refine ⟨?_, ?_, ?_, ?_⟩
  · intro body a1
    cases a1 with
    | tokenExpired => rfl
    | response s b =>
      by_cases hs : s = 401 <;> simp [request, secondAttempt, hs]
  · intro body body1
    simp [request, secondAttempt]
  · intro a0 a1 r
    have h2 : ∀ b, (secondAttempt b).2.requests ≤ 2 := by
      intro b
      cases b with
      | tokenExpired => exact le_refl 2
      | response s bo => by_cases hs : s = 401 <;> simp [secondAttempt, hs]
    cases a0 with
    | tokenExpired =>
      cases r with
      | error e => simp [request]
      | ok u => exact h2 a1
    | response s b =>
      by_cases hs : s = 401
      · cases r with
        | error e => simp [request, hs]
        | ok u => simpa [request, hs] using h2 a1
      · simp [request, hs]
  · intro a0 a1 r hreq
    cases a0 with
    | tokenExpired => exact Or.inl rfl
    | response s b =>
      by_cases hs : s = 401
      · exact Or.inr ⟨b, by rw [hs]⟩
      · cases r <;> simp [request, hs] at hreq

/-- Witness for C2 at concrete attempt outcomes: two 401 responses give the
authentication failure after exactly two attempts and one refresh, and a
first-attempt 401 qualifies as a retry trigger. -/
theorem request_retry_policy_witness :
    (request (.response 401 (.valid (.dict []))) (.response 401 (.valid (.dict [])))
      (.ok ())).2 = ⟨2, 1⟩
    ∧ request (.response 401 (.valid (.dict []))) (.response 401 (.valid (.dict [])))
        (.ok ()) =
      (.error (.mintError .authentication "authentication failed - token rejected"
        (some 401) (.str "")), ⟨2, 1⟩)
    ∧ (request (.response 200 (.valid (.dict []))) (.response 200 (.valid (.dict [])))
        (.ok ())).2.requests ≤ 2
    ∧ ((.response 401 (.valid (.dict [])) : AttemptOutcome) = .tokenExpired
        ∨ ∃ body, (.response 401 (.valid (.dict [])) : AttemptOutcome) =
            .response 401 body) :=
  ⟨request_retry_policy.1 (.valid (.dict [])) (.response 401 (.valid (.dict []))),
   request_retry_policy.2.1 (.valid (.dict [])) (.valid (.dict [])),
   request_retry_policy.2.2.1 (.response 200 (.valid (.dict [])))
     (.response 200 (.valid (.dict []))) (.ok ()),
   request_retry_policy.2.2.2 (.response 401 (.valid (.dict [])))
     (.response 401 (.valid (.dict []))) (.ok ()) rfl⟩

/-- Helper: the accumulation loop of build_filter_str keeps an error. -/
theorem foldl_filterStep_error (filters : List (String × FilterValue)) (e : PyError) :
    filters.foldl filterStep (.error e) = .error e := by
  induction filters with
  | nil => rfl
  | cons fv rest ih => simpa [filterStep] using ih

/-- Helper: a successful accumulation extends its initial string on the right,
so the initial string heads the result. -/
theorem foldl_filterStep_ok_pre (filters : List (String × FilterValue)) :
    ∀ (init s : String), filters.foldl filterStep (.ok init) = .ok s →
      init.data <+: s.data := by
  induction filters with
  | nil =>
    intro init s h
    injection h with h
    subst h
    exact List.prefix_refl _
  | cons fv rest ih =>
    intro init s h
    rw [List.foldl_cons] at h
    cases hc : filterClause fv.1 fv.2 with
    | error e =>
      rw [show filterStep (.ok init) fv = .error e by simp [filterStep, hc],
        foldl_filterStep_error] at h
      simp at h
    | ok c =>
      rw [show filterStep (.ok init) fv = .ok (init ++ c) by simp [filterStep, hc]] at h
      have hrest := ih (init ++ c) s h
      have hpre : init.data <+: (init ++ c).data := by
        rw [String.data_append]
        exact List.prefix_append _ _
      exact hpre.trans hrest

/-- Helper: the clause of any filter entry occurs inside a successfully
accumulated filter string. -/
theorem foldl_filterStep_mem_occurs (filters : List (String × FilterValue)) :
    ∀ (init s f : String) (v : FilterValue) (c : String),
      filters.foldl filterStep (.ok init) = .ok s → (f, v) ∈ filters →
      filterClause f v = .ok c → c.data <:+: s.data := by
  induction filters with
  | nil =>
    intro init s f v c _ hmem _
    simp at hmem
  | cons fv rest ih =>
    intro init s f v c h hmem hc
    rw [List.foldl_cons] at h
    cases hcl : filterClause fv.1 fv.2 with
    | error e =>
      rw [show filterStep (.ok init) fv = .error e by simp [filterStep, hcl],
        foldl_filterStep_error] at h
      simp at h
    | ok c0 =>
      rw [show filterStep (.ok init) fv = .ok (init ++ c0) by simp [filterStep, hcl]] at h
      rcases List.mem_cons.mp hmem with heq | hrest
    
      · subst heq
        dsimp only at hcl
        rw [hc] at hcl
        injection hcl with hcl
        subst hcl
        have hpre := foldl_filterStep_ok_pre rest (init ++ c) s h
        have hinf : c.data <:+: (init ++ c).data :=
          ⟨init.data, [], by simp [String.data_append]⟩
        exact hinf.trans hpre.isInfix
      · exact ih _ _ _ _ _ h hrest hc

/-- Helper: a filter entry whose clause raises makes the whole accumulation
raise, whatever the accumulator holds. -/
theorem foldl_filterStep_mem_error (filters : List (String × FilterValue)) :
    ∀ (init : Except PyError String) (f : String) (v : FilterValue) (e : PyError),
      (f, v) ∈ filters → filterClause f v = .error e →
      ∃ e2, filters.foldl filterStep init = .error e2 := by
  induction filters with
  | nil =>
    intro _ _ _ _ hmem _
    simp at hmem
  | cons fv rest ih =>
    intro init f v e hmem hc
    rw [List.foldl_cons]
    cases init with
    | error e0 =>
      exact ⟨e0, by rw [show filterStep (.error e0) fv = .error e0 from rfl,
        foldl_filterStep_error]⟩
    | ok s =>
      cases hcl : filterClause fv.1 fv.2 with
      | error e1 =>
        exact ⟨e1, by rw [show filterStep (.ok s) fv = .error e1 by simp [filterStep, hcl],
          foldl_filterStep_error]⟩
      | ok c0 =>
        rcases List.mem_cons.mp hmem with heq | hrest
        · subst heq
          dsimp only at hcl
          rw [hc] at hcl
          simp at hcl
        · rw [show filterStep (.ok s) fv = .ok (s ++ c0) by simp [filterStep, hcl]]
          exact ih _ f v e hrest hc

/-- Helper: a successfully built Module.get URL contains the whole filter
string built from the filters. -/
theorem build_infix_url (baseurl module_name : String) (fields : List String)
    (sort : Option String) (operator : String)
    (filters : List (String × FilterValue)) (url : String)
    (h : module_get_url baseurl module_name fields sort operator filters = .ok url) :
    ∃ fstr, build_filter_str operator filters = .ok fstr ∧ fstr.data <:+: url.data := by
  unfold module_get_url at h
  cases hb : build_filter_str operator filters with
  | error e =>
    rw [hb] at h
    simp at h
  | ok fstr =>
    rw [hb] at h
    refine ⟨fstr, rfl, ?_⟩
    have hcore : fstr.data <:+:
        (baseurl ++ "/module/" ++ module_name ++ fields_str module_name fields
          ++ "&" ++ fstr).data :=
      ⟨(baseurl ++ "/module/" ++ module_name ++ fields_str module_name fields
          ++ "&").data, [], by simp [String.data_append]⟩
    cases sort with
    | none =>
      injection h with h
      subst h
      exact hcore
    | some s =>
      by_cases hs : s = ""
      · simp only [hs, if_pos rfl] at h
        injection h with h
        subst h
        exact hcore
      · simp only [if_neg hs] at h
        injection h with h
        subst h
        exact hcore.trans ⟨[], ("&sort=-" ++ s).data, by simp [String.data_append]⟩

/-- C6: every successfully built query URL contains filter[operator]= followed
by the supplied combinator when it is and/or, and by and for any other
supplied combinator. -/
theorem query_combinator_fallback (baseurl module_name : String)
    (fields : List String) (sort : Option String) (operator : String)
    (filters : List (String × FilterValue)) (url : String)
    (h : module_get_url baseurl module_name fields sort operator filters = .ok url) :
    ("filter[operator]=" ++
      (if operator = "and" ∨ operator = "or" then operator else "and")).data
      <:+: url.data := by
  obtain ⟨fstr, hb, hinf⟩ :=
    build_infix_url baseurl module_name fields sort operator filters url h
  unfold build_filter_str at hb
  have hpre := foldl_filterStep_ok_pre filters _ fstr hb
  rw [effectiveOperator] at hpre
  exact hpre.isInfix.trans hinf

/-- Witness for C6: an unsupported combinator xor emits filter[operator]=and. -/
theorem query_combinator_fallback_witness :
    module_get_url "https://host/Api/V8" "Employees" [] none "xor" [] =
      .ok "https://host/Api/V8/module/Employees?&filter[operator]=and"
    ∧ ("filter[operator]=" ++
        (if ("xor" : String) = "and" ∨ ("xor" : String) = "or" then "xor" else "and")).data
        <:+: ("https://host/Api/V8/module/Employees?&filter[operator]=and" : String).data :=
  ⟨rfl, query_combinator_fallback "https://host/Api/V8" "Employees" [] none "xor" [] _ rfl⟩

/-- C5: a plain scalar filter contributes an EQ clause to the built URL, a
structured comparison whose operator is in the table contributes the clause
with the mapped code, and the table maps exactly as documented. -/
theorem query_filter_codes (baseurl module_name : String) (fields : List String)
    (sort : Option String) (operator : String)
    (filters : List (String × FilterValue)) (url f : String)
    (h : module_get_url baseurl module_name fields sort operator filters = .ok url) :
    (∀ s, (f, FilterValue.scalar s) ∈ filters →
      ("&filter[" ++ f ++ "][EQ]=" ++ s).data <:+: url.data)
    ∧ (∀ op v code, (f, FilterValue.cmp op v) ∈ filters →
        operators.lookup op = some code →
        ("&filter[" ++ f ++ "][" ++ code ++ "]=" ++ v).data <:+: url.data)
    ∧ operators.lookup "=" = some "EQ" ∧ operators.lookup "<>" = some "NEQ"
    ∧ operators.lookup ">" = some "GT" ∧ operators.lookup ">=" = some "GTE"
    ∧ operators.lookup "<" = some "LT" ∧ operators.lookup "<=" = some "LTE"
    ∧ operators.lookup "LIKE" = some "LIKE"
    ∧ operators.lookup "NOT LIKE" = some "NOT_LIKE"
    ∧ operators.lookup "IN" = some "IN"
    ∧ operators.lookup "NOT IN" = some "NOT_IN" := by
  obtain ⟨fstr, hb, hinf⟩ :=
    build_infix_url baseurl module_name fields sort operator filters url h
  unfold build_filter_str at hb
  refine ⟨?_, ?_, rfl, rfl, rfl, rfl, rfl, rfl, rfl, rfl, rfl, rfl⟩
  · intro s hmem
    have hc : filterClause f (.scalar s) = .ok ("&filter[" ++ f ++ "][EQ]=" ++ s) := rfl
    exact (foldl_filterStep_mem_occurs filters _ fstr f _ _ hb hmem hc).trans hinf
  · intro op v code hmem hlook
    have hbet : op ≠ "BETWEEN" := by
      intro hop
      rw [hop] at hlook
      exact absurd (rfl.trans hlook : (none : Option String) = some code) (by simp)
    have hc : filterClause f (.cmp op v) =
        .ok ("&filter[" ++ f ++ "][" ++ code ++ "]=" ++ v) := by
      simp [filterClause, hbet, hlook]
    exact (foldl_filterStep_mem_occurs filters _ fstr f _ _ hb hmem hc).trans hinf

/-- Witness for C5: a scalar status filter produces an EQ clause inside the
concrete URL. -/
theorem query_filter_codes_witness :
    module_get_url "https://host/Api/V8" "Employees" [] none "and"
      [("status", FilterValue.scalar "active")] =
      .ok "https://host/Api/V8/module/Employees?&filter[operator]=and&filter[status][EQ]=active"
    ∧ ("&filter[" ++ "status" ++ "][EQ]=" ++ "active").data <:+:
      ("https://host/Api/V8/module/Employees?&filter[operator]=and&filter[status][EQ]=active"
        : String).data :=
  ⟨rfl,
   (query_filter_codes "https://host/Api/V8" "Employees" [] none "and"
      [("status", FilterValue.scalar "active")] _ "status" rfl).1 "active"
     (List.mem_singleton.mpr rfl)⟩

/-- Helper: Python split on comma of a two-part comma-joined string. -/
theorem pySplitComma_pair (a b : String) (ha : (',' : Char) ∉ a.data)
    (hb : (',' : Char) ∉ b.data) : pySplitComma (a ++ "," ++ b) = [a, b] := by
  have hpa : ∀ x ∈ a.data, ¬((x == ',') = true) := by
    intro x hx hbeq
    exact ha ((beq_iff_eq.mp hbeq) ▸ hx)
  have hpb : ∀ x ∈ b.data, ¬((x == ',') = true) := by
    intro x hx hbeq
    exact hb ((beq_iff_eq.mp hbeq) ▸ hx)
  have hdata : (a ++ "," ++ b).data = a.data ++ ',' :: b.data := by
    simp [String.data_append]
  unfold pySplitComma List.splitOn
  rw [hdata, List.splitOnP_first _ _ hpa ',' (by simp) b.data,
    List.splitOnP_eq_single _ _ hpb]
  rfl

/-- C4: a BETWEEN filter over a comma-joined two-part value translates to
exactly a GT clause on the lower part followed by an LT clause on the upper
part (so no BETWEEN clause is emitted), and both clauses occur inside the
built URL. -/
theorem query_between_bounds (baseurl module_name : String) (fields : List String)
    (sort : Option String) (operator : String)
    (filters : List (String × FilterValue)) (url f a b : String)
    (h : module_get_url baseurl module_name fields sort operator filters = .ok url)
    (hmem : (f, FilterValue.cmp "BETWEEN" (a ++ "," ++ b)) ∈ filters)
    (ha : (',' : Char) ∉ a.data) (hb : (',' : Char) ∉ b.data) :
    filterClause f (.cmp "BETWEEN" (a ++ "," ++ b)) =
      .ok ("&filter[" ++ f ++ "][GT]=" ++ a ++ "&filter[" ++ f ++ "][LT]=" ++ b)
    ∧ ("&filter[" ++ f ++ "][GT]=" ++ a).data <:+: url.data
    ∧ ("&filter[" ++ f ++ "][LT]=" ++ b).data <:+: url.data := by
  have hc : filterClause f (.cmp "BETWEEN" (a ++ "," ++ b)) =
      .ok ("&filter[" ++ f ++ "][GT]=" ++ a ++ "&filter[" ++ f ++ "][LT]=" ++ b) := by
    simp [filterClause, pySplitComma_pair a b ha hb]
  obtain ⟨fstr, hbf, hinf⟩ :=
    build_infix_url baseurl module_name fields sort operator filters url h
  unfold build_filter_str at hbf
  have hclause :=
    (foldl_filterStep_mem_occurs filters _ fstr f _ _ hbf hmem hc).trans hinf
  refine ⟨hc, ?_, ?_⟩
  · refine (List.IsInfix.trans ?_ hclause)
    exact ⟨[], ("&filter[" ++ f ++ "][LT]=" ++ b).data, by simp [String.data_append]⟩
  · refine (List.IsInfix.trans ?_ hclause)
    exact ⟨("&filter[" ++ f ++ "][GT]=" ++ a).data, [], by simp [String.data_append]⟩

/-- Witness for C4: the age BETWEEN 18,65 filter yields both bounds in the
concrete URL. -/
theorem query_between_bounds_witness :
    module_get_url "https://host/Api/V8" "Employees" [] none "and"
      [("age", FilterValue.cmp "BETWEEN" ("18" ++ "," ++ "65"))] =
      .ok "https://host/Api/V8/module/Employees?&filter[operator]=and&filter[age][GT]=18&filter[age][LT]=65"
    ∧ (filterClause "age" (.cmp "BETWEEN" ("18" ++ "," ++ "65")) =
        .ok ("&filter[" ++ "age" ++ "][GT]=" ++ "18" ++ "&filter[" ++ "age" ++ "][LT]=" ++ "65")
      ∧ ("&filter[" ++ "age" ++ "][GT]=" ++ "18").data <:+:
        ("https://host/Api/V8/module/Employees?&filter[operator]=and&filter[age][GT]=18&filter[age][LT]=65"
          : String).data
      ∧ ("&filter[" ++ "age" ++ "][LT]=" ++ "65").data <:+:
        ("https://host/Api/V8/module/Employees?&filter[operator]=and&filter[age][GT]=18&filter[age][LT]=65"
          : String).data) :=
  ⟨rfl,
   query_between_bounds "https://host/Api/V8" "Employees" [] none "and"
     [("age", FilterValue.cmp "BETWEEN" ("18" ++ "," ++ "65"))] _ "age" "18" "65"
     rfl (List.mem_singleton.mpr rfl) (by decide) (by decide)⟩

/-- C1 counterexample: with the unknown comparison operator of the claim the
translation raises a plain KeyError before any network call; a KeyError is a
builtin lookup error, not a RequestError-class (MintHCMError) failure, so
the failure class stated by the claim is wrong. -/
theorem module_get_unknown_operator_counterexample :
    module_get "https://host/Api/V8" "Employees" [] none "and"
      [("age", FilterValue.cmp "~=" "30")] dispatchOk =
      (.error (.keyError "~="), [])
    ∧ (PyError.keyError "~=").isRequestError = false
    ∧ (PyError.keyError "~=").isKeyError = true :=
  ⟨rfl, rfl, rfl⟩

/-- C1 (amended): a structured comparison whose operator is outside the fixed
table (and is not BETWEEN) makes the clause translation raise KeyError for
that operator, and the whole Query call fail at translation time with no
network request issued through the session manager. -/
theorem module_get_unknown_operator (baseurl module_name : String)
    (fields : List String) (sort : Option String) (operator : String)
    (filters : List (String × FilterValue)) (dispatch : Dispatch)
    (f op v : String) (hmem : (f, FilterValue.cmp op v) ∈ filters)
    (hlook : operators.lookup op = none) (hbet : op ≠ "BETWEEN") :
    filterClause f (.cmp op v) = .error (.keyError op)
    ∧ ∃ e, module_get baseurl module_name fields sort operator filters dispatch =
        (.error e, []) := by
  have hc : filterClause f (.cmp op v) = .error (.keyError op) := by
    simp [filterClause, hbet, hlook]
  refine ⟨hc, ?_⟩
  obtain ⟨e2, he2⟩ := foldl_filterStep_mem_error filters
    (.ok ("filter[operator]=" ++ effectiveOperator operator)) f _ _ hmem hc
  refine ⟨e2, ?_⟩
  unfold module_get module_get_url build_filter_str
  rw [he2]

/-- Witness for the amended C1 at the concrete operator of the spec example. -/
theorem module_get_unknown_operator_witness :
    ((("age", FilterValue.cmp "~=" "30") ∈ [("age", FilterValue.cmp "~=" "30")])
      ∧ operators.lookup "~=" = none ∧ ("~=" : String) ≠ "BETWEEN")
    ∧ filterClause "age" (.cmp "~=" "30") = .error (.keyError "~=")
    ∧ ∃ e, module_get "https://host/Api/V8" "Employees" [] none "and"
        [("age", FilterValue.cmp "~=" "30")] dispatchOk = (.error e, []) :=
  ⟨⟨List.mem_singleton.mpr rfl, rfl, by decide⟩,
   (module_get_unknown_operator "https://host/Api/V8" "Employees" [] none "and"
      [("age", FilterValue.cmp "~=" "30")] dispatchOk "age" "~=" "30"
      (List.mem_singleton.mpr rfl) rfl (by decide)).1,
   (module_get_unknown_operator "https://host/Api/V8" "Employees" [] none "and"
      [("age", FilterValue.cmp "~=" "30")] dispatchOk "age" "~=" "30"
      (List.mem_singleton.mpr rfl) rfl (by decide)).2⟩
